import Mathlib

/-!
Verification of the event-classification, tool-usage-audit and report-writing
logic of `agent.py` (a role-based code-review orchestration script).

The Python source is shallowly embedded: the single pass over
`result.new_items` (lines 120-165) becomes `classifyStep` / `classifyFrom`,
the sanity check on used tools (lines 171-175) becomes `auditWarn`, the
derived review-directory computation (lines 181-185) becomes `derivedBase`,
and the whole body of `main` (lines 71-228) becomes `mainActions`, a function
from an environment (file-read outcome, returned event list, write-success
oracle) to the ordered list of externally visible actions the script performs.
Python exceptions are modelled with `Except` (for the classifier) and with a
terminal `Act.crashed` entry (for the uncaught exceptions of `main`).
-/

/-! ## Python string primitives (structural, kernel-evaluable) -/

/-- `str.split(sep)` for a one-character separator: splits on every
occurrence, keeping empty pieces (Python keeps them too). -/
def splitOnChar (c : Char) : List Char → List (List Char)
  | [] => [[]]
  | x :: xs =>
    match splitOnChar c xs, decide (x = c) with
    | r, true => [] :: r
    | [], false => [[x]]
    | h :: t, false => (x :: h) :: t

/-- `file_path.split(os.sep)` with `os.sep = sep` (a single character). -/
def pySplitSep (s : String) (c : Char) : List String :=
  (splitOnChar c s.data).map String.mk

/-- `s.replace(a, b)` for one-character `a`, `b`: replaces every occurrence. -/
def replaceChar (a b : Char) (s : String) : String :=
  String.mk (s.data.map (fun ch => if ch = a then b else ch))

/-- `sep.join(parts)`. -/
def joinWith (sep : String) : List String → String
  | [] => ""
  | [x] => x
  | x :: y :: t => x ++ sep ++ joinWith sep (y :: t)

/-- `s.lower()` (ASCII case folding, which is all the source relies on). -/
def pyLower (s : String) : String :=
  String.mk (s.data.map Char.toLower)

/-- Does `l` start with `p`? -/
def startsWithChars : List Char → List Char → Bool
  | _, [] => true
  | [], _ :: _ => false
  | a :: as, b :: bs => (a = b) && startsWithChars as bs

/-- Auxiliary for `pyIn`: does `p` occur as a contiguous run inside `l`? -/
def containsChars : List Char → List Char → Bool
  | [], p => p.isEmpty
  | l@(_ :: t), p => startsWithChars l p || containsChars t p

/-- Python's `sub in s` membership test on strings. -/
def pyIn (sub s : String) : Bool :=
  containsChars s.data sub.data

/-- Python's `l[-n:]`: the last `n` elements (all of them when `l` is shorter). -/
def lastN (n : Nat) (l : List String) : List String :=
  l.drop (l.length - n)

/-- Index of the last occurrence of `c` in `l` (Python `str.rfind`,
with `none` standing for `-1`). -/
def lastPos (c : Char) (l : List Char) : Option Nat :=
  ((List.range l.length).filter (fun i => l.get? i = some c)).getLast?

/-- `os.path.splitext(p)[0]` for POSIX paths: drop the final extension, where
the extension starts at the last dot, unless every character between the
start of the basename and that dot is itself a dot. -/
def splitextStem (p : String) : String :=
  let l := p.data
  match lastPos '.' l with
  | none => p
  | some d =>
    let fi : Nat :=
      match lastPos '/' l with
      | none => 0
      | some si => si + 1
    if fi ≤ d then
      if ((l.drop fi).take (d - fi)).any (fun ch => !(ch = '.')) then
        String.mk (l.take d)
      else p
    else p

/-- `os.path.join(a, b)` for POSIX paths (two arguments). -/
def pyPathJoin (a b : String) : String :=
  if b.data.head? = some '/' then b
  else if a = "" ∨ a.data.getLast? = some '/' then a ++ b
  else a ++ "/" ++ b

/-! ## Review-directory derivation (`agent.py` lines 181-185)

```
path_parts = file_path.split(os.sep)
base = "_".join(path_parts[-3:]).replace(".", "_")
base = os.path.splitext(base)[0]
review_dir = os.path.join("reviews", base)
```
-/

def derivedBase (file_path : String) : String :=
  let path_parts := pySplitSep file_path '/'
  let base := replaceChar '.' '_' (joinWith "_" (lastN 3 path_parts))
  splitextStem base

def reviewDirOf (file_path : String) : String :=
  pyPathJoin "reviews" (derivedBase file_path)

/-! ## Events and the classifier state (`agent.py` lines 96-165)

One item of `result.new_items`. The runtime hands back duck-typed records;
every payload the loop reads is therefore modelled as an `Option`, with
`none` meaning the attribute/key is absent (so that reading it in Python
raises). `rawStr` is `str(item.raw_item)`, which always succeeds. -/

structure Event where
  ty : Option String
  name : Option String
  callIdAttr : Option String
  arguments : Option String
  callIdKey : Option String
  output : Option String
  content : Option (List String)
  rawStr : String
deriving DecidableEq

def blankEvent : Event :=
  { ty := none, name := none, callIdAttr := none, arguments := none,
    callIdKey := none, output := none, content := none, rawStr := "" }

def mkToolCall (call_id tool_name args : String) : Event :=
  { blankEvent with
      ty := some "tool_call_item", name := some tool_name,
      callIdAttr := some call_id, arguments := some args }

def mkToolResult (call_id out : String) : Event :=
  { blankEvent with
      ty := some "tool_call_output_item",
      callIdKey := some call_id, output := some out }

def mkMessage (texts : List String) : Event :=
  { blankEvent with ty := some "message_output_item", content := some texts }

def mkReasoning (raw : String) : Event :=
  { blankEvent with ty := some "reasoning_item", rawStr := raw }

/-- The mutable state of the classification loop: `used_tools` (a Python
set, modelled as a duplicate-free insertion list), `id_to_tool` (a Python
dict, modelled as an association list where the most recent binding is in
front) and the four note buckets, in source order. -/
structure CState where
  used_tools : List String
  id_to_tool : List (String × String)
  junior_notes : List String
  senior_notes : List String
  manager_notes : List String
  planning_notes : List String
deriving DecidableEq

def initState : CState :=
  { used_tools := [], id_to_tool := [], junior_notes := [],
    senior_notes := [], manager_notes := [], planning_notes := [] }

/-- `id_to_tool.get(call_id, default)`. -/
def pyDictGet (d : List (String × String)) (k dflt : String) : String :=
  match d.find? (fun p => p.1 = k) with
  | some p => p.2
  | none => dflt

/-- Branch of the loop for `t == "tool_call_item"` (lines 122-133): reads
`raw_item.name`, `raw_item.call_id` and `raw_item.arguments`; an absent
attribute raises `AttributeError` and aborts the whole pass. -/
def stepToolCall (st : CState) (item : Event) : Except String CState :=
  match item.name, item.callIdAttr, item.arguments with
  | some tool_name, some call_id, some _a =>
    Except.ok { st with
        id_to_tool := (call_id, tool_name) :: st.id_to_tool,
        used_tools := st.used_tools.insert tool_name }
  | _, _, _ => Except.error "AttributeError"

/-- Branch for `t == "tool_call_output_item"` (lines 135-146): reads
`raw_item["call_id"]` and `item.output` (absent ones raise), resolves the
tool name through `id_to_tool` with `""` as the default, lowercases it and
buckets the output by substring match. -/
def stepToolOutput (st : CState) (item : Event) : Except String CState :=
  match item.callIdKey, item.output with
  | some call_id, some out =>
    if pyIn "junior" (pyLower (pyDictGet st.id_to_tool call_id "")) then
      Except.ok { st with junior_notes := st.junior_notes ++ [out] }
    else if pyIn "senior" (pyLower (pyDictGet st.id_to_tool call_id "")) then
      Except.ok { st with senior_notes := st.senior_notes ++ [out] }
    else Except.ok st
  | _, _ => Except.error "KeyError"

/-- Branch for `t == "message_output_item"` (lines 148-159): the fragment
extraction is wrapped in `try/except`, so a malformed `content` is caught
and nothing is appended. -/
def stepMessage (st : CState) (item : Event) : Except String CState :=
  match item.content with
  | some chunks =>
    Except.ok { st with
      manager_notes := st.manager_notes ++ [joinWith "\n" chunks] }
  | none => Except.ok st

/-- Branch for `t == "reasoning_item"` (lines 161-165). -/
def stepReasoning (st : CState) (item : Event) : Except String CState :=
  Except.ok { st with planning_notes := st.planning_notes ++ [item.rawStr] }

/-- One iteration of the classification loop (lines 120-165); `t` values
other than the four known tags fall through every branch and are ignored. -/
def classifyStep (st : CState) (item : Event) : Except String CState :=
  match item.ty with
  | some "tool_call_item" => stepToolCall st item
  | some "tool_call_output_item" => stepToolOutput st item
  | some "message_output_item" => stepMessage st item
  | some "reasoning_item" => stepReasoning st item
  | _ => Except.ok st

/-- The classification pass starting from state `st`; an exception in one
iteration aborts the remainder of the pass. -/
def classifyFrom (st : CState) : List Event → Except String CState
  | [] => Except.ok st
  | e :: es =>
    match classifyStep st e with
    | Except.ok st' => classifyFrom st' es
    | Except.error msg => Except.error msg

/-- The full single classification pass over `result.new_items`. -/
def classifyTrace (events : List Event) : Except String CState :=
  classifyFrom initState events

/-! ## Tool-usage audit (`agent.py` lines 171-175) -/

def requiredTools : List String :=
  ["junior_developer_agent", "senior_developer_agent"]

/-- `not required.issubset(used_tools)`: `true` exactly when the warning is
printed. -/
def auditWarn (used : List String) : Bool :=
  !(requiredTools.all (fun r => used.contains r))

/-! ## The visible behaviour of `main` (`agent.py` lines 71-228)

`main` is a straight-line coroutine whose externally observable behaviour is
a sequence of actions: console prints, the single runtime invocation, the
directory creation and the per-bucket file writes. `RunEnv` packages the
inputs together with the outcomes of the external effects `main` performs
(the file read, `os.makedirs`, each `open(..., "w")`): the outcome of an
effect is decided by the environment, and `mainActions` says what the script
does with each outcome. An uncaught Python exception ends the run; it is the
terminal `Act.crashed` entry. -/

inductive FileErr where
  | notFound
  | other (msg : String)
deriving DecidableEq

structure RunEnv where
  user_input : String
  file_path : String
  fileRead : Except FileErr String
  events : List Event
  final_output : String
  result_repr : String
  mkdirOk : Bool
  writeOk : String → Bool

inductive Act where
  | consoleOut (s : String)
  | runRuntime (input : String)
  | classifierStep
  | auditorStep
  | emitFinalAnswer (s : String)
  | makeDirs (p : String)
  | openForWrite (p : String)
  | fileWritten (p : String) (contents : String)
  | crashed (msg : String)
deriving DecidableEq

/-- Rendering used for the `print(used_tools)` / warning lines; the exact
text of a Python `set` repr is immaterial, only which line is printed. -/
def showTools (l : List String) : String :=
  joinWith ", " l

/-- Messages printed by the two `except` arms of the file read
(lines 76-81). -/
def inputErrMsg (file_path : String) : FileErr → String
  | FileErr.notFound => "Error: File not found at " ++ file_path
  | FileErr.other e => "Error reading file: " ++ e

/-- One `if <bucket>:` block of the writer (e.g. lines 195-201): skipped
when the bucket is empty; otherwise the file is opened, the heading and
then each note followed by a blank line are written, and the saved-message
is printed. A failing open/write raises, ending the run. -/
def bucketFileActions (ok : String → Bool) (fn header : String)
    (notes : List String) (savedMsg : String) (rest : List Act) :
    List Act :=
  if notes.isEmpty then rest
  else
    Act.openForWrite fn ::
      (if ok fn then
        Act.fileWritten fn
            (header ++ String.join (notes.map (fun note => note ++ "\n\n"))) ::
          Act.consoleOut savedMsg :: rest
      else [Act.crashed "write error"])

/-- Lines 181-228: derive the review directory, `os.makedirs` it, then the
four bucket writes in source order (junior, senior, manager, planner). -/
def reportWriterActions (env : RunEnv) (st : CState) : List Act :=
  let review_dir := reviewDirOf env.file_path
  let junior_fn := pyPathJoin review_dir "junior_review.md"
  let senior_fn := pyPathJoin review_dir "senior_review.md"
  let manager_fn := pyPathJoin review_dir "manager_review.md"
  let planner_fn := pyPathJoin review_dir "planner_review.md"
  Act.makeDirs review_dir ::
    (if env.mkdirOk then
      bucketFileActions env.writeOk junior_fn "# Junior Developer Review\n\n"
        st.junior_notes "\n✓ Junior review saved to: junior_review.md"
        (bucketFileActions env.writeOk senior_fn "# Senior Developer Review\n\n"
          st.senior_notes "✓ Senior review saved to: senior_review.md"
          (bucketFileActions env.writeOk manager_fn "# Manager Notes\n\n"
            st.manager_notes "✓ Manger Notes saved to: manager_review.md"
            (bucketFileActions env.writeOk planner_fn "# Planner Notes\n\n"
              st.planning_notes "✓ Planner Notes saved to: planning_steps.md"
              [])))
    else [Act.crashed "makedirs error"])

/-- Actions of `main` before the classification loop on the success path
(lines 84-117): the combined prompt is handed to the runtime, then the
banner, `print(result)` and the debugging banner. -/
def preClassifyActions (env : RunEnv) (file_content : String) : List Act :=
  [Act.runRuntime
      (env.user_input ++ "\n\nFile to review:\n```\n" ++ file_content ++ "\n```"),
   Act.consoleOut "\n\n=====Manager Agent initiated=====\n\n",
   Act.consoleOut env.result_repr,
   Act.consoleOut "\n\n======== Debugging ========\n\n"]

/-- Actions between the classification loop and the audit (lines 168-169). -/
def preAuditActions (st : CState) : List Act :=
  [Act.consoleOut "\n\n======== TOOLS USED: ========\n\n",
   Act.consoleOut (showTools st.used_tools)]

/-- Actions between the audit and `print(result.final_output)`
(lines 173-177): the optional warning, then the final-output banner. -/
def preEmitActions (st : CState) : List Act :=
  (if auditWarn st.used_tools then
    [Act.consoleOut "WARNING: Manager did NOT call all required tools!",
     Act.consoleOut ("Expected: " ++ showTools requiredTools ++ ", got: " ++
       showTools st.used_tools)]
  else []) ++
    [Act.consoleOut "\n\n======== FINAL OUTPUT ========\n\n"]

/-- The whole of `main` (lines 71-228) as its ordered visible actions. -/
def mainActions (env : RunEnv) : List Act :=
  match env.fileRead with
  | Except.error err => [Act.consoleOut (inputErrMsg env.file_path err)]
  | Except.ok file_content =>
    preClassifyActions env file_content ++
      Act.classifierStep ::
        (match classifyTrace env.events with
         | Except.error e => [Act.crashed e]
         | Except.ok st =>
           preAuditActions st ++
             Act.auditorStep ::
               (preEmitActions st ++
                 Act.emitFinalAnswer env.final_output ::
                   reportWriterActions env st))

/-- Position of the first occurrence of `a` in `l` (length of `l` if absent). -/
def posOf (a : Act) : List Act → Nat
  | [] => 0
  | b :: t => if a = b then 0 else posOf a t + 1

/-- `true` when no action follows a `crashed` entry: an uncaught exception
ends the run. -/
def noActionAfterCrash : List Act → Bool
  | [] => true
  | Act.crashed _ :: t => t.isEmpty
  | _ :: t => noActionAfterCrash t

/-- The actions of one non-empty-bucket write when the write succeeds; used
to state what the writer produces on a fully successful run. -/
def bucketPart (fn header : String) (notes : List String) (msg : String) :
    List Act :=
  if notes.isEmpty then []
  else
    [Act.openForWrite fn,
     Act.fileWritten fn
       (header ++ String.join (notes.map (fun note => note ++ "\n\n"))),
     Act.consoleOut msg]

/-! ## Concrete runs used as test vectors -/

/-- A tool-invocation record whose `raw_item` lacks the `name` attribute. -/
def evToolCallNoName : Event :=
  { blankEvent with
      ty := some "tool_call_item",
      callIdAttr := some "call_7", arguments := some "" }

/-- An assistant-message record whose fragment extraction fails. -/
def evMsgNoContent : Event :=
  { blankEvent with ty := some "message_output_item" }

def happyEvents : List Event :=
  [mkToolCall "c1" "junior_developer_agent" "",
   mkToolResult "c1" "JNOTE",
   mkToolCall "c2" "senior_developer_agent" "",
   mkToolResult "c2" "SNOTE",
   mkMessage ["FINAL"]]

def happyState : CState :=
  { used_tools := ["senior_developer_agent", "junior_developer_agent"],
    id_to_tool := [("c2", "senior_developer_agent"),
      ("c1", "junior_developer_agent")],
    junior_notes := ["JNOTE"], senior_notes := ["SNOTE"],
    manager_notes := ["FINAL"], planning_notes := [] }

def envHappy : RunEnv :=
  { user_input := "Please review this code", file_path := "/a/b/c/file.py",
    fileRead := Except.ok "print(1)", events := happyEvents,
    final_output := "ANS", result_repr := "RunResult", mkdirOk := true,
    writeOk := fun _p => true }

def envJuniorWriteFails : RunEnv :=
  { envHappy with
      writeOk := fun p => !(p == "reviews/b_c_file_py/junior_review.md") }

def envInputMissing : RunEnv :=
  { envHappy with fileRead := Except.error FileErr.notFound }

def envNoToolCalls : RunEnv :=
  { envHappy with events := [mkMessage ["hi"], mkReasoning "plan"] }

def stNoToolCalls : CState :=
  { initState with manager_notes := ["hi"], planning_notes := ["plan"] }

/-- State after one junior tool invocation with call id `c1`. -/
def stJuniorOnly : CState :=
  { initState with
      used_tools := ["junior_developer_agent"],
      id_to_tool := [("c1", "junior_developer_agent")] }

/-- State after one junior tool invocation with call id `a1`. -/
def stPreOrphan : CState :=
  { initState with
      used_tools := ["junior_developer_agent"],
      id_to_tool := [("a1", "junior_developer_agent")] }

/-- A call-id map binding where the tool name mentions both personas. -/
def stBothNames : CState :=
  { initState with id_to_tool := [("c9", "junior_senior_agent")] }

deriving instance DecidableEq for Except

/-! ## Basic lemmas about the classifier -/

theorem classifyStep_mkToolCall (st : CState) (c n a : String) :
    classifyStep st (mkToolCall c n a) =
      Except.ok { st with
        id_to_tool := (c, n) :: st.id_to_tool,
        used_tools := st.used_tools.insert n } := rfl

theorem classifyStep_mkToolResult (st : CState) (c out : String) :
    classifyStep st (mkToolResult c out) =
      (if pyIn "junior" (pyLower (pyDictGet st.id_to_tool c "")) then
        Except.ok { st with junior_notes := st.junior_notes ++ [out] }
      else if pyIn "senior" (pyLower (pyDictGet st.id_to_tool c "")) then
        Except.ok { st with senior_notes := st.senior_notes ++ [out] }
      else Except.ok st) := rfl

theorem pyDictGet_cons_self (c n dflt : String) (d : List (String × String)) :
    pyDictGet ((c, n) :: d) c dflt = n := by
  simp [pyDictGet, List.find?]

theorem pyDictGet_cons_ne (c k n dflt : String) (d : List (String × String))
    (h : k ≠ c) : pyDictGet ((k, n) :: d) c dflt = pyDictGet d c dflt := by
  simp [pyDictGet, List.find?, h]

theorem classifyFrom_append (xs ys : List Event) (st : CState) :
    classifyFrom st (xs ++ ys) =
      (match classifyFrom st xs with
       | Except.ok st' => classifyFrom st' ys
       | Except.error msg => Except.error msg) := by
  induction xs generalizing st with
  | nil => rfl
  | cons e es ih =>
    simp only [List.cons_append, classifyFrom]
    cases h : classifyStep st e with
    | ok st' => simp [ih]
    | error msg => rfl

/-- A successful step never removes anything from a bucket: each bucket of
the post-state extends the corresponding bucket of the pre-state. -/
theorem step_buckets_mono (st st' : CState) (e : Event)
    (h : classifyStep st e = Except.ok st') :
    (∃ d, st'.junior_notes = st.junior_notes ++ d) ∧
      (∃ d, st'.senior_notes = st.senior_notes ++ d) ∧
      (∃ d, st'.manager_notes = st.manager_notes ++ d) ∧
      (∃ d, st'.planning_notes = st.planning_notes ++ d) := by
  unfold classifyStep stepToolCall stepToolOutput stepMessage stepReasoning at h
  split at h
  · split at h
    · injection h with h2
      subst h2
      exact ⟨⟨[], by simp⟩, ⟨[], by simp⟩, ⟨[], by simp⟩, ⟨[], by simp⟩⟩
    · exact absurd h (by simp)
  · split at h
    · split at h
      · injection h with h2; subst h2
        exact ⟨⟨_, rfl⟩, ⟨[], by simp⟩, ⟨[], by simp⟩, ⟨[], by simp⟩⟩
      · split at h
        · injection h with h2; subst h2
          exact ⟨⟨[], by simp⟩, ⟨_, rfl⟩, ⟨[], by simp⟩, ⟨[], by simp⟩⟩
        · injection h with h2; subst h2
          exact ⟨⟨[], by simp⟩, ⟨[], by simp⟩, ⟨[], by simp⟩, ⟨[], by simp⟩⟩
    · exact absurd h (by simp)
  · split at h
    · injection h with h2; subst h2
      exact ⟨⟨[], by simp⟩, ⟨[], by simp⟩, ⟨_, rfl⟩, ⟨[], by simp⟩⟩
    · injection h with h2; subst h2
      exact ⟨⟨[], by simp⟩, ⟨[], by simp⟩, ⟨[], by simp⟩, ⟨[], by simp⟩⟩
  · injection h with h2; subst h2
    exact ⟨⟨[], by simp⟩, ⟨[], by simp⟩, ⟨[], by simp⟩, ⟨_, rfl⟩⟩
  · injection h with h2; subst h2
    exact ⟨⟨[], by simp⟩, ⟨[], by simp⟩, ⟨[], by simp⟩, ⟨[], by simp⟩⟩

/-- A successful pass only ever appends to the four buckets. -/
theorem classifyFrom_buckets_mono (es : List Event) (st st' : CState)
    (h : classifyFrom st es = Except.ok st') :
    (∃ d, st'.junior_notes = st.junior_notes ++ d) ∧
      (∃ d, st'.senior_notes = st.senior_notes ++ d) ∧
      (∃ d, st'.manager_notes = st.manager_notes ++ d) ∧
      (∃ d, st'.planning_notes = st.planning_notes ++ d) := by
  induction es generalizing st with
  | nil =>
    injection h with h2
    subst h2
    exact ⟨⟨[], by simp⟩, ⟨[], by simp⟩, ⟨[], by simp⟩, ⟨[], by simp⟩⟩
  | cons e es ih =>
    unfold classifyFrom at h
    cases hstep : classifyStep st e with
    | error msg => rw [hstep] at h; exact absurd h (by simp)
    | ok st1 =>
      rw [hstep] at h
      obtain ⟨⟨d1, hj1⟩, ⟨d2, hs1⟩, ⟨d3, hm1⟩, ⟨d4, hp1⟩⟩ :=
        step_buckets_mono st st1 e hstep
      obtain ⟨⟨e1, hj2⟩, ⟨e2, hs2⟩, ⟨e3, hm2⟩, ⟨e4, hp2⟩⟩ := ih st1 h
      exact ⟨⟨d1 ++ e1, by rw [hj2, hj1, List.append_assoc]⟩,
        ⟨d2 ++ e2, by rw [hs2, hs1, List.append_assoc]⟩,
        ⟨d3 ++ e3, by rw [hm2, hm1, List.append_assoc]⟩,
        ⟨d4 ++ e4, by rw [hp2, hp1, List.append_assoc]⟩⟩

/-- A step on an event that is not a tool invocation leaves the used-tools
set and the call-id map untouched. -/
theorem step_no_toolcall (st st' : CState) (e : Event)
    (hty : e.ty ≠ some "tool_call_item")
    (h : classifyStep st e = Except.ok st') :
    st'.used_tools = st.used_tools ∧ st'.id_to_tool = st.id_to_tool := by
  unfold classifyStep stepToolCall stepToolOutput stepMessage stepReasoning at h
  split at h
  · exact absurd (by assumption) hty
  · split at h
    · split at h
      · injection h with h2; subst h2; exact ⟨rfl, rfl⟩
      · split at h
        · injection h with h2; subst h2; exact ⟨rfl, rfl⟩
        · injection h with h2; subst h2; exact ⟨rfl, rfl⟩
    · exact absurd h (by simp)
  · split at h
    · injection h with h2; subst h2; exact ⟨rfl, rfl⟩
    · injection h with h2; subst h2; exact ⟨rfl, rfl⟩
  · injection h with h2; subst h2; exact ⟨rfl, rfl⟩
  · injection h with h2; subst h2; exact ⟨rfl, rfl⟩

/-- A pass over events none of which is a tool invocation leaves the
used-tools set and the call-id map untouched. -/
theorem classifyFrom_no_toolcall (es : List Event) (st st' : CState)
    (hty : ∀ e ∈ es, e.ty ≠ some "tool_call_item")
    (h : classifyFrom st es = Except.ok st') :
    st'.used_tools = st.used_tools ∧ st'.id_to_tool = st.id_to_tool := by
  induction es generalizing st with
  | nil => injection h with h2; subst h2; exact ⟨rfl, rfl⟩
  | cons e es ih =>
    unfold classifyFrom at h
    cases hstep : classifyStep st e with
    | error msg => rw [hstep] at h; exact absurd h (by simp)
    | ok st1 =>
      rw [hstep] at h
      obtain ⟨hu1, hd1⟩ :=
        step_no_toolcall st st1 e (hty e (List.mem_cons_self e es)) hstep
      obtain ⟨hu2, hd2⟩ := ih st1 (fun x hx => hty x (List.mem_cons_of_mem e hx)) h
      exact ⟨hu2.trans hu1, hd2.trans hd1⟩

/-- A step on an event that is not a tool invocation carrying call id `c`
preserves what the call-id map resolves for `c`. -/
theorem step_preserves_dictGet (st st' : CState) (e : Event) (c : String)
    (hc : ¬(e.ty = some "tool_call_item" ∧ e.callIdAttr = some c))
    (h : classifyStep st e = Except.ok st') :
    pyDictGet st'.id_to_tool c "" = pyDictGet st.id_to_tool c "" := by
  unfold classifyStep stepToolCall stepToolOutput stepMessage stepReasoning at h
  split at h
  · split at h
    · rename_i tool_name call_id _a hname hcall harg
      injection h with h2
      subst h2
      dsimp only
      refine pyDictGet_cons_ne c call_id tool_name "" st.id_to_tool ?_
      intro hkc
      exact hc ⟨by assumption, hkc ▸ hcall⟩
    · exact absurd h (by simp)
  · split at h
    · split at h
      · injection h with h2; subst h2; rfl
      · split at h
        · injection h with h2; subst h2; rfl
        · injection h with h2; subst h2; rfl
    · exact absurd h (by simp)
  · split at h
    · injection h with h2; subst h2; rfl
    · injection h with h2; subst h2; rfl
  · injection h with h2; subst h2; rfl
  · injection h with h2; subst h2; rfl

/-- A pass over events none of which is a tool invocation carrying call id
`c` preserves what the call-id map resolves for `c`. -/
theorem classifyFrom_preserves_dictGet (es : List Event) (st st' : CState)
    (c : String)
    (hc : ∀ e ∈ es, ¬(e.ty = some "tool_call_item" ∧ e.callIdAttr = some c))
    (h : classifyFrom st es = Except.ok st') :
    pyDictGet st'.id_to_tool c "" = pyDictGet st.id_to_tool c "" := by
  induction es generalizing st with
  | nil => injection h with h2; subst h2; rfl
  | cons e es ih =>
    unfold classifyFrom at h
    cases hstep : classifyStep st e with
    | error msg => rw [hstep] at h; exact absurd h (by simp)
    | ok st1 =>
      rw [hstep] at h
      have hh1 :=
        step_preserves_dictGet st st1 e c (hc e (List.mem_cons_self e es)) hstep
      have hh2 := ih st1 (fun x hx => hc x (List.mem_cons_of_mem e hx)) h
      exact hh2.trans hh1

/-- The success path of `main`, decomposed around the four stages: the
classification loop, the audit, the final-output print, the report writer. -/
theorem mainActions_ok (env : RunEnv) (fc : String) (st : CState)
    (h1 : env.fileRead = Except.ok fc)
    (h2 : classifyTrace env.events = Except.ok st) :
    mainActions env =
      preClassifyActions env fc ++
        Act.classifierStep ::
          (preAuditActions st ++
            Act.auditorStep ::
              (preEmitActions st ++
                Act.emitFinalAnswer env.final_output ::
                  reportWriterActions env st)) := by
  unfold mainActions
  rw [h1, h2]

/-- On the input-error path, `main` prints the error message and performs
nothing else. -/
theorem mainActions_inputErr (env : RunEnv) (err : FileErr)
    (h : env.fileRead = Except.error err) :
    mainActions env = [Act.consoleOut (inputErrMsg env.file_path err)] := by
  unfold mainActions
  rw [h]

/-- A bucket write whose `open` succeeds contributes its `bucketPart`. -/
theorem bucketFileActions_allOk (ok : String → Bool) (fn header : String)
    (notes : List String) (msg : String) (rest : List Act)
    (hok : ok fn = true) :
    bucketFileActions ok fn header notes msg rest =
      bucketPart fn header notes msg ++ rest := by
  unfold bucketFileActions bucketPart
  split
  · simp
  · simp [hok]

/-- The report writer on a run where the directory creation and every file
write succeed. -/
theorem reportWriter_allOk (env : RunEnv) (st : CState)
    (hmk : env.mkdirOk = true) (hw : ∀ p, env.writeOk p = true) :
    reportWriterActions env st =
      Act.makeDirs (reviewDirOf env.file_path) ::
        (bucketPart (pyPathJoin (reviewDirOf env.file_path) "junior_review.md")
            "# Junior Developer Review\n\n" st.junior_notes
            "\n✓ Junior review saved to: junior_review.md" ++
          (bucketPart (pyPathJoin (reviewDirOf env.file_path) "senior_review.md")
              "# Senior Developer Review\n\n" st.senior_notes
              "✓ Senior review saved to: senior_review.md" ++
            (bucketPart (pyPathJoin (reviewDirOf env.file_path) "manager_review.md")
                "# Manager Notes\n\n" st.manager_notes
                "✓ Manger Notes saved to: manager_review.md" ++
              (bucketPart (pyPathJoin (reviewDirOf env.file_path) "planner_review.md")
                  "# Planner Notes\n\n" st.planning_notes
                  "✓ Planner Notes saved to: planning_steps.md" ++ [])))) := by
  unfold reportWriterActions
  rw [hmk]
  simp only [if_true]
  rw [bucketFileActions_allOk _ _ _ _ _ _ (hw _),
    bucketFileActions_allOk _ _ _ _ _ _ (hw _),
    bucketFileActions_allOk _ _ _ _ _ _ (hw _),
    bucketFileActions_allOk _ _ _ _ _ _ (hw _)]

theorem noActionAfterCrash_bucket (ok : String → Bool) (fn header : String)
    (notes : List String) (msg : String) (rest : List Act)
    (hrest : noActionAfterCrash rest = true) :
    noActionAfterCrash (bucketFileActions ok fn header notes msg rest) = true := by
  unfold bucketFileActions
  split
  · exact hrest
  · split
    · exact hrest
    · rfl

/-! ## The claims -/

/-- C4: The review-directory name is a pure function of the input file
path, built from the last three path components joined by underscores with
the final extension's dot rewritten to an underscore: `/a/b/c/file.py`
(more than three components) derives `b_c_file_py`, and so does
`b/c/file.py` (exactly three components); the review directory is
`reviews/<derived-name>` in both cases. -/
theorem C4_theorem :
    derivedBase "/a/b/c/file.py" = "b_c_file_py" ∧
      derivedBase "b/c/file.py" = "b_c_file_py" ∧
      reviewDirOf "/a/b/c/file.py" = "reviews/b_c_file_py" ∧
      reviewDirOf "b/c/file.py" = "reviews/b_c_file_py" :=
  ⟨rfl, rfl, rfl, rfl⟩

/-- C1 is refuted at this input: a tool-invocation event whose record lacks
the tool name raises (`AttributeError`) instead of substituting an empty
value, and classification of the remaining events never happens. -/
theorem C1_counterexample :
    classifyTrace [evToolCallNoName, mkMessage ["hello"]] =
      Except.error "AttributeError" := rfl

/-- C1 (amended): the single classification pass degrades gracefully only
in the assistant-message branch and for unknown kinds: an assistant-message
event with missing/malformed content is caught (nothing appended, the pass
continues), and an event of unknown kind is skipped; but a tool-invocation
event missing its tool name, call id or arguments, and a tool-result event
missing its call id or output text, raise and abort the pass. -/
theorem C1_amended_theorem (st : CState) (e : Event) :
    (e.ty = some "message_output_item" → e.content = none →
      classifyStep st e = Except.ok st) ∧
    (e.ty = some "tool_call_item" →
      (e.name = none ∨ e.callIdAttr = none ∨ e.arguments = none) →
      classifyStep st e = Except.error "AttributeError") ∧
    (e.ty = some "tool_call_output_item" →
      (e.callIdKey = none ∨ e.output = none) →
      classifyStep st e = Except.error "KeyError") ∧
    (e.ty = none → classifyStep st e = Except.ok st) := by
  refine ⟨?_, ?_, ?_, ?_⟩
  · intro hty hc
    unfold classifyStep
    rw [hty]
    show stepMessage st e = _
    unfold stepMessage
    rw [hc]
  · intro hty hmiss
    unfold classifyStep
    rw [hty]
    show stepToolCall st e = _
    unfold stepToolCall
    rcases hmiss with h | h | h
    · rw [h]
    · rw [h]
      cases e.name <;> rfl
    · rw [h]
      cases e.name <;> cases e.callIdAttr <;> rfl
  · intro hty hmiss
    unfold classifyStep
    rw [hty]
    show stepToolOutput st e = _
    unfold stepToolOutput
    rcases hmiss with h | h
    · rw [h]
    · rw [h]
      cases e.callIdKey <;> rfl
  · intro hty
    unfold classifyStep
    rw [hty]

theorem C1_witness :
    classifyStep initState evMsgNoContent = Except.ok initState ∧
      classifyStep initState evToolCallNoName =
        Except.error "AttributeError" :=
  ⟨(C1_amended_theorem initState evMsgNoContent).1 rfl rfl,
    (C1_amended_theorem initState evToolCallNoName).2.1 rfl (Or.inl rfl)⟩

/-- C2 is refuted at this input: junior and senior buckets are both
non-empty, the junior file write fails, and the senior file is never even
attempted. -/
theorem C2_counterexample :
    classifyTrace envJuniorWriteFails.events = Except.ok happyState ∧
      happyState.senior_notes ≠ [] ∧
      Act.openForWrite "reviews/b_c_file_py/junior_review.md" ∈
        mainActions envJuniorWriteFails ∧
      Act.crashed "write error" ∈ mainActions envJuniorWriteFails ∧
      Act.openForWrite "reviews/b_c_file_py/senior_review.md" ∉
        mainActions envJuniorWriteFails := by
  decide

/-- C2 (amended): a failure to create the directory or to write one
bucket's file propagates as an uncaught exception and ends the run right
there: no later bucket write (nor any other action) is attempted after the
failure, so per-bucket isolation does not hold. -/
theorem C2_amended_theorem (env : RunEnv) (st : CState) :
    noActionAfterCrash (reportWriterActions env st) = true := by
  unfold reportWriterActions
  split
  · exact noActionAfterCrash_bucket _ _ _ _ _ _
      (noActionAfterCrash_bucket _ _ _ _ _ _
        (noActionAfterCrash_bucket _ _ _ _ _ _
          (noActionAfterCrash_bucket _ _ _ _ _ _ rfl)))
  · rfl

/-- C3 is refuted at this input: on a fully successful run the final
textual answer is emitted strictly before the Report Writer stage (whose
first action is the directory creation), not after it. -/
theorem C3_counterexample :
    Act.emitFinalAnswer "ANS" ∈ mainActions envHappy ∧
      Act.makeDirs "reviews/b_c_file_py" ∈ mainActions envHappy ∧
      posOf (Act.emitFinalAnswer "ANS") (mainActions envHappy) <
        posOf (Act.makeDirs "reviews/b_c_file_py") (mainActions envHappy) := by
  decide

/-- C3 (amended): on every successful run the Session Driver runs the Event
Classifier, then the Tool-Usage Auditor, then emits the final textual
answer, and only then runs the Report Writer: emission is the third of the
four steps and the Report Writer is last. -/
theorem C3_amended_theorem (env : RunEnv) (fc : String) (st : CState)
    (h1 : env.fileRead = Except.ok fc)
    (h2 : classifyTrace env.events = Except.ok st) :
    mainActions env =
      preClassifyActions env fc ++
        Act.classifierStep ::
          (preAuditActions st ++
            Act.auditorStep ::
              (preEmitActions st ++
                Act.emitFinalAnswer env.final_output ::
                  reportWriterActions env st)) :=
  mainActions_ok env fc st h1 h2

theorem C3_witness :
    mainActions envHappy =
      preClassifyActions envHappy "print(1)" ++
        Act.classifierStep ::
          (preAuditActions happyState ++
            Act.auditorStep ::
              (preEmitActions happyState ++
                Act.emitFinalAnswer "ANS" ::
                  reportWriterActions envHappy happyState)) :=
  C3_amended_theorem envHappy "print(1)" happyState rfl rfl

/-- C5: for a tool-invocation event with call id `c` and tool name `n`
followed later by a tool-result event with the same call id (no other
invocation reusing `c` in between), the result text is appended to the
junior bucket and to no other bucket when the lowered name contains
"junior"; to the senior bucket and to no other when it contains "senior"
(the checks being made in that order); and to neither review bucket,
without error, when it contains neither. -/
theorem C5_theorem (pre mid : List Event) (stMid : CState)
    (c n args out : String)
    (h1 : classifyTrace (pre ++ mkToolCall c n args :: mid) = Except.ok stMid)
    (h2 : ∀ e ∈ mid, ¬(e.ty = some "tool_call_item" ∧ e.callIdAttr = some c)) :
    (pyIn "junior" (pyLower n) = true →
      classifyTrace (pre ++ mkToolCall c n args :: (mid ++ [mkToolResult c out])) =
        Except.ok { stMid with junior_notes := stMid.junior_notes ++ [out] }) ∧
    (pyIn "junior" (pyLower n) = false → pyIn "senior" (pyLower n) = true →
      classifyTrace (pre ++ mkToolCall c n args :: (mid ++ [mkToolResult c out])) =
        Except.ok { stMid with senior_notes := stMid.senior_notes ++ [out] }) ∧
    (pyIn "junior" (pyLower n) = false → pyIn "senior" (pyLower n) = false →
      classifyTrace (pre ++ mkToolCall c n args :: (mid ++ [mkToolResult c out])) =
        Except.ok stMid) := by
  unfold classifyTrace at h1 ⊢
  have h1full := h1
  rw [classifyFrom_append] at h1
  cases hpre : classifyFrom initState pre with
  | error msg => rw [hpre] at h1; exact absurd h1 (by simp)
  | ok stPre =>
    rw [hpre] at h1
    have h1mid : classifyFrom { stPre with
        id_to_tool := (c, n) :: stPre.id_to_tool,
        used_tools := stPre.used_tools.insert n } mid = Except.ok stMid := h1
    have hlook : pyDictGet stMid.id_to_tool c "" = n := by
      have hp := classifyFrom_preserves_dictGet mid _ stMid c h2 h1mid
      rw [hp]
      exact pyDictGet_cons_self c n "" stPre.id_to_tool
    have hr : pre ++ mkToolCall c n args :: (mid ++ [mkToolResult c out]) =
        (pre ++ mkToolCall c n args :: mid) ++ [mkToolResult c out] := by
      simp
    have hkey :
        classifyFrom initState
            (pre ++ mkToolCall c n args :: (mid ++ [mkToolResult c out])) =
          classifyStep stMid (mkToolResult c out) := by
      rw [hr, classifyFrom_append, h1full]
      show classifyFrom stMid [mkToolResult c out] = _
      unfold classifyFrom
      cases hs : classifyStep stMid (mkToolResult c out) with
      | ok s => rfl
      | error msg => rfl
    refine ⟨?_, ?_, ?_⟩
    · intro hj
      rw [hkey, classifyStep_mkToolResult, hlook, hj, if_pos rfl]
    · intro hj hs
      rw [hkey, classifyStep_mkToolResult, hlook, hj, hs,
        if_neg (by simp), if_pos rfl]
    · intro hj hs
      rw [hkey, classifyStep_mkToolResult, hlook, hj, hs,
        if_neg (by simp), if_neg (by simp)]

theorem C5_witness :
    classifyTrace [mkToolCall "c1" "junior_developer_agent" "",
        mkToolResult "c1" "OUT"] =
      Except.ok { stJuniorOnly with junior_notes := ["OUT"] } := by
  have h := (C5_theorem [] [] stJuniorOnly "c1" "junior_developer_agent" ""
    "OUT" rfl (by simp)).1 rfl
  exact h

/-- C6: a tool-result whose call id was never introduced by any prior
tool-invocation does not crash classification: the tool name resolves to
the empty string and the result text lands in neither review bucket (the
classifier state is unchanged). -/
theorem C6_theorem (pre : List Event) (st : CState) (c out : String)
    (hpre : classifyTrace pre = Except.ok st)
    (hno : ∀ e ∈ pre, ¬(e.ty = some "tool_call_item" ∧ e.callIdAttr = some c)) :
    pyDictGet st.id_to_tool c "" = "" ∧
      classifyTrace (pre ++ [mkToolResult c out]) = Except.ok st := by
  unfold classifyTrace at hpre ⊢
  have hlook : pyDictGet st.id_to_tool c "" = "" := by
    have hp := classifyFrom_preserves_dictGet pre initState st c hno hpre
    rw [hp]
    rfl
  refine ⟨hlook, ?_⟩
  rw [classifyFrom_append, hpre]
  show classifyFrom st [mkToolResult c out] = _
  unfold classifyFrom
  rw [classifyStep_mkToolResult, hlook]
  rfl

theorem C6_witness :
    pyDictGet stPreOrphan.id_to_tool "zz" "" = "" ∧
      classifyTrace ([mkToolCall "a1" "junior_developer_agent" ""] ++
        [mkToolResult "zz" "LOST"]) = Except.ok stPreOrphan :=
  C6_theorem [mkToolCall "a1" "junior_developer_agent" ""] stPreOrphan
    "zz" "LOST" rfl (by decide)

/-- C7: if the input file cannot be opened or read, the run reports the
error and performs nothing else: the external runtime is never invoked, no
directory is created, and no file is opened or written. -/
theorem C7_theorem (env : RunEnv) (err : FileErr)
    (h : env.fileRead = Except.error err) :
    mainActions env = [Act.consoleOut (inputErrMsg env.file_path err)] ∧
      (∀ s, Act.runRuntime s ∉ mainActions env) ∧
      (∀ p, Act.makeDirs p ∉ mainActions env) ∧
      (∀ p, Act.openForWrite p ∉ mainActions env) ∧
      (∀ p cts, Act.fileWritten p cts ∉ mainActions env) := by
  have hm := mainActions_inputErr env err h
  refine ⟨hm, ?_, ?_, ?_, ?_⟩
  · intro s; rw [hm]; simp
  · intro p; rw [hm]; simp
  · intro p; rw [hm]; simp
  · intro p cts; rw [hm]; simp

theorem C7_witness :
    mainActions envInputMissing =
        [Act.consoleOut "Error: File not found at /a/b/c/file.py"] ∧
      Act.runRuntime "x" ∉ mainActions envInputMissing ∧
      Act.makeDirs "reviews/b_c_file_py" ∉ mainActions envInputMissing :=
  ⟨(C7_theorem envInputMissing FileErr.notFound rfl).1,
    (C7_theorem envInputMissing FileErr.notFound rfl).2.1 "x",
    (C7_theorem envInputMissing FileErr.notFound rfl).2.2.1
      "reviews/b_c_file_py"⟩

/-- C8: on a run where directory creation and every file write succeed,
each of the four buckets produces its Markdown file exactly when the bucket
is non-empty (an empty bucket contributes nothing), the file holding the
bucket's level-1 heading first and then each note followed by a blank
line, in bucket order; and bucket order is stable under extending the
event sequence: classification only ever appends to each bucket. -/
theorem C8_theorem :
    (∀ (env : RunEnv) (st : CState), env.mkdirOk = true →
      (∀ p, env.writeOk p = true) →
      reportWriterActions env st =
        Act.makeDirs (reviewDirOf env.file_path) ::
          (bucketPart (pyPathJoin (reviewDirOf env.file_path) "junior_review.md")
              "# Junior Developer Review\n\n" st.junior_notes
              "\n✓ Junior review saved to: junior_review.md" ++
            (bucketPart (pyPathJoin (reviewDirOf env.file_path) "senior_review.md")
                "# Senior Developer Review\n\n" st.senior_notes
                "✓ Senior review saved to: senior_review.md" ++
              (bucketPart (pyPathJoin (reviewDirOf env.file_path) "manager_review.md")
                  "# Manager Notes\n\n" st.manager_notes
                  "✓ Manger Notes saved to: manager_review.md" ++
                (bucketPart (pyPathJoin (reviewDirOf env.file_path) "planner_review.md")
                    "# Planner Notes\n\n" st.planning_notes
                    "✓ Planner Notes saved to: planning_steps.md" ++ []))))) ∧
    (∀ (es₁ es₂ : List Event) (st₁ st₂ : CState),
      classifyTrace es₁ = Except.ok st₁ →
      classifyTrace (es₁ ++ es₂) = Except.ok st₂ →
      (∃ d, st₂.junior_notes = st₁.junior_notes ++ d) ∧
        (∃ d, st₂.senior_notes = st₁.senior_notes ++ d) ∧
        (∃ d, st₂.manager_notes = st₁.manager_notes ++ d) ∧
        (∃ d, st₂.planning_notes = st₁.planning_notes ++ d)) := by
  constructor
  · intro env st hmk hw
    exact reportWriter_allOk env st hmk hw
  · intro es₁ es₂ st₁ st₂ h1 h2
    unfold classifyTrace at h1 h2
    rw [classifyFrom_append, h1] at h2
    exact classifyFrom_buckets_mono es₂ st₁ st₂ h2

theorem C8_witness :
    reportWriterActions envHappy happyState =
      [Act.makeDirs "reviews/b_c_file_py",
       Act.openForWrite "reviews/b_c_file_py/junior_review.md",
       Act.fileWritten "reviews/b_c_file_py/junior_review.md"
         "# Junior Developer Review\n\nJNOTE\n\n",
       Act.consoleOut "\n✓ Junior review saved to: junior_review.md",
       Act.openForWrite "reviews/b_c_file_py/senior_review.md",
       Act.fileWritten "reviews/b_c_file_py/senior_review.md"
         "# Senior Developer Review\n\nSNOTE\n\n",
       Act.consoleOut "✓ Senior review saved to: senior_review.md",
       Act.openForWrite "reviews/b_c_file_py/manager_review.md",
       Act.fileWritten "reviews/b_c_file_py/manager_review.md"
         "# Manager Notes\n\nFINAL\n\n",
       Act.consoleOut "✓ Manger Notes saved to: manager_review.md"] ∧
      ((∃ d, ({ stJuniorOnly with junior_notes := ["OUT"] } : CState).junior_notes =
          stJuniorOnly.junior_notes ++ d) ∧
        (∃ d, ({ stJuniorOnly with junior_notes := ["OUT"] } : CState).senior_notes =
          stJuniorOnly.senior_notes ++ d) ∧
        (∃ d, ({ stJuniorOnly with junior_notes := ["OUT"] } : CState).manager_notes =
          stJuniorOnly.manager_notes ++ d) ∧
        (∃ d, ({ stJuniorOnly with junior_notes := ["OUT"] } : CState).planning_notes =
          stJuniorOnly.planning_notes ++ d)) :=
  ⟨C8_theorem.1 envHappy happyState rfl (fun _p => rfl),
    C8_theorem.2 [mkToolCall "c1" "junior_developer_agent" ""]
      [mkToolResult "c1" "OUT"] stJuniorOnly
      { stJuniorOnly with junior_notes := ["OUT"] } rfl rfl⟩

/-- C9: with zero tool-invocation events in the trace the used-tools set
is empty, the audit reports the required tools missing as a console
warning rather than an exception, and the report-writing stage is still
reached regardless. -/
theorem C9_theorem (env : RunEnv) (fc : String) (st : CState)
    (h1 : env.fileRead = Except.ok fc)
    (h2 : classifyTrace env.events = Except.ok st)
    (h3 : ∀ e ∈ env.events, e.ty ≠ some "tool_call_item") :
    st.used_tools = [] ∧ auditWarn st.used_tools = true ∧
      Act.consoleOut "WARNING: Manager did NOT call all required tools!" ∈
        mainActions env ∧
      Act.makeDirs (reviewDirOf env.file_path) ∈ mainActions env := by
  have hu : st.used_tools = [] :=
    (classifyFrom_no_toolcall env.events initState st h3 h2).1
  have hw : auditWarn st.used_tools = true := by rw [hu]; rfl
  refine ⟨hu, hw, ?_, ?_⟩
  · rw [mainActions_ok env fc st h1 h2]
    simp [preEmitActions, hw]
  · rw [mainActions_ok env fc st h1 h2]
    simp [reportWriterActions]

theorem C9_witness :
    stNoToolCalls.used_tools = [] ∧
      auditWarn stNoToolCalls.used_tools = true ∧
      Act.consoleOut "WARNING: Manager did NOT call all required tools!" ∈
        mainActions envNoToolCalls ∧
      Act.makeDirs (reviewDirOf "/a/b/c/file.py") ∈ mainActions envNoToolCalls :=
  C9_theorem envNoToolCalls "print(1)" stNoToolCalls rfl rfl (by decide)

/-- C10: a tool-result whose resolved tool name contains both "junior" and
"senior" (case-insensitively) is appended to the junior bucket only: the
junior check takes priority over the senior check. -/
theorem C10_theorem (st : CState) (c n out : String)
    (hres : pyDictGet st.id_to_tool c "" = n)
    (hj : pyIn "junior" (pyLower n) = true)
    (hs : pyIn "senior" (pyLower n) = true) :
    classifyStep st (mkToolResult c out) =
      Except.ok { st with junior_notes := st.junior_notes ++ [out] } := by
  rw [classifyStep_mkToolResult, hres, hj, if_pos rfl]

theorem C10_witness :
    classifyStep stBothNames (mkToolResult "c9" "BOTH") =
      Except.ok { stBothNames with junior_notes := ["BOTH"] } := by
  have h := C10_theorem stBothNames "c9" "junior_senior_agent" "BOTH"
    rfl rfl rfl
  exact h
